import Mathlib

/-!
Verification of the heater temperature-control core (klippy/extras/heaters.py).

Shallow embedding: floating-point values are modelled as rationals (ℚ), the
mutable Python objects as explicit state records, and the calls into the
hardware PWM output as an `Option (ℚ × ℚ)` result carrying the scheduled
`(time, duty)` write when one is issued.
-/

namespace Heaters

/-- MAX_HEAT_TIME = 5.0 in the source. -/
def MAX_HEAT_TIME : ℚ := 5

/-- AMBIENT_TEMP = 25. in the source. -/
def AMBIENT_TEMP : ℚ := 25

/-- PID_PARAM_BASE = 255. in the source. -/
def PID_PARAM_BASE : ℚ := 255

/-- PID_PROFILE_VERSION = 1 in the source. -/
def PID_PROFILE_VERSION : Int := 1

/-- PID_SETTLE_DELTA = 1. in the source. -/
def PID_SETTLE_DELTA : ℚ := 1

/-- PID_SETTLE_SLOPE = .1 in the source. -/
def PID_SETTLE_SLOPE : ℚ := 1/10

/-- Python's `(x > 0.) - (x < 0.)` sign computation used by the PID
anti-windup test (booleans coerce to 0/1 and are subtracted as integers). -/
def pySign (x : ℚ) : Int :=
  (if 0 < x then 1 else 0) - (if x < 0 then 1 else 0)

/-!
ControlPID (class ControlPID in the source).  The per-instance attributes
set in `__init__` and mutated by `temperature_update` form the state record.
-/

structure PIDState where
  Kp : ℚ
  Ki : ℚ
  Kd : ℚ
  dt : ℚ
  smooth : ℚ
  heater_max_power : ℚ
  prev_temp : ℚ
  prev_err : ℚ
  prev_der : ℚ
  int_sum : ℚ
deriving DecidableEq

/-- err = target_temp - temp -/
def ControlPID.err_of (temp target_temp : ℚ) : ℚ := target_temp - temp

/-- ic = ((prev_err + err) / 2.) * dt  (trapezoidal rule increment) -/
def ControlPID.ic_of (s : PIDState) (temp target_temp : ℚ) : ℚ :=
  ((s.prev_err + ControlPID.err_of temp target_temp) / 2) * s.dt

/-- dc = ((smooth - 1.) * prev_der + (-(temp - prev_temp) / dt)) / smooth -/
def ControlPID.dc_of (s : PIDState) (temp : ℚ) : ℚ :=
  ((s.smooth - 1) * s.prev_der + (-(temp - s.prev_temp) / s.dt)) / s.smooth

/-- o = Kp * err + Ki * (int_sum + ic) + Kd * dc  (raw output) -/
def ControlPID.o_of (s : PIDState) (temp target_temp : ℚ) : ℚ :=
  s.Kp * ControlPID.err_of temp target_temp
    + s.Ki * (s.int_sum + ControlPID.ic_of s temp target_temp)
    + s.Kd * ControlPID.dc_of s temp

/-- so = max(0., min(heater_max_power, o))  (saturated output) -/
def ControlPID.so_of (s : PIDState) (temp target_temp : ℚ) : ℚ :=
  max 0 (min s.heater_max_power (ControlPID.o_of s temp target_temp))

/-- ControlPID.temperature_update: returns the new controller state and the
value passed to heater.set_pwm (the saturated output `so`). -/
def ControlPID.temperature_update (s : PIDState) (read_time temp target_temp : ℚ) :
    PIDState × ℚ :=
  let err := ControlPID.err_of temp target_temp
  let ic := ControlPID.ic_of s temp target_temp
  let i := s.int_sum + ic
  let dc := ControlPID.dc_of s temp
  let o := ControlPID.o_of s temp target_temp
  let so := ControlPID.so_of s temp target_temp
  (if target_temp > 0 then
    if o = so then
      -- not saturated so an update is allowed
      { s with prev_temp := temp, prev_der := dc, prev_err := err, int_sum := i }
    else if pySign o ≠ pySign ic then
      -- the signs are opposite so an update is allowed
      { s with prev_temp := temp, prev_der := dc, prev_err := err, int_sum := i }
    else
      { s with prev_temp := temp, prev_der := dc, prev_err := err }
  else
    { s with prev_temp := temp, prev_der := dc, prev_err := 0, int_sum := 0 },
  so)

/-!
ControlBangBang (class ControlBangBang in the source).
-/

structure BangBangState where
  heater_max_power : ℚ
  max_delta : ℚ
  heating : Bool
deriving DecidableEq

/-- The `self.heating` value after the two hysteresis branches of
ControlBangBang.temperature_update. -/
def ControlBangBang.next_heating (s : BangBangState) (temp target_temp : ℚ) : Bool :=
  if s.heating = true ∧ temp ≥ target_temp + s.max_delta then false
  else if s.heating = false ∧ temp ≤ target_temp - s.max_delta then true
  else s.heating

/-- ControlBangBang.temperature_update: new state plus the value passed to
heater.set_pwm (heater_max_power while heating, else 0). -/
def ControlBangBang.temperature_update (s : BangBangState)
    (read_time temp target_temp : ℚ) : BangBangState × ℚ :=
  ({ s with heating := ControlBangBang.next_heating s temp target_temp },
   if ControlBangBang.next_heating s temp target_temp = true
   then s.heater_max_power else 0)

/-!
ControlVelocityPID (class ControlVelocityPID in the source).  The three-entry
`self.temps` and `self.times` lists are modelled as triples (oldest first),
matching the pop(0)/append shifting of the source.
-/

structure VPIDState where
  Kp : ℚ
  Ki : ℚ
  Kd : ℚ
  smooth_time : ℚ
  heater_max_power : ℚ
  temps : ℚ × ℚ × ℚ
  times : ℚ × ℚ × ℚ
  d1 : ℚ
  d2 : ℚ
  pwm : ℚ
deriving DecidableEq

/-- ControlVelocityPID.temperature_update: new state plus the value passed to
heater.set_pwm (self.pwm).  Division by a zero time step yields 0 in ℚ; the
source would raise ZeroDivisionError, a case outside the sensor contract of
strictly increasing report times. -/
def ControlVelocityPID.temperature_update (s : VPIDState)
    (read_time temp target_temp : ℚ) : VPIDState × ℚ :=
  let temps := (s.temps.2.1, s.temps.2.2, temp)
  let times := (s.times.2.1, s.times.2.2, read_time)
  let d1 := temps.2.2 - temps.2.1
  let error := (times.2.2 - times.2.1) * (target_temp - temps.2.2)
  let d2 := (temps.2.2 - 2 * temps.2.1 + temps.1) / (times.2.2 - times.2.1)
  let n := max 1 (s.smooth_time / (times.2.2 - times.2.1))
  let d1s := ((n - 1) * s.d1 + d1) / n
  let d2s := ((n - 1) * s.d2 + d2) / n
  let p := s.Kp * -d1s
  let i := s.Ki * error
  let d := s.Kd * -d2s
  let pwm :=
    if target_temp > 0 then
      max 0 (min s.heater_max_power (s.pwm + p + i + d))
    else 0
  ({ s with temps := temps, times := times, d1 := d1s, d2 := d2s, pwm := pwm },
   pwm)

/-- Iterated ControlVelocityPID.temperature_update over a sample list of
`(read_time, temp, target_temp)` triples. -/
def runVelocityPID (s : VPIDState) (samples : List (ℚ × ℚ × ℚ)) : VPIDState :=
  samples.foldl
    (fun st x => (ControlVelocityPID.temperature_update st x.1 x.2.1 x.2.2).1) s

/-!
The active control algorithm of a Heater (`self.control`), a closed variant
over the three classes dispatched by Heater.lookup_control.
-/

inductive ControlState where
  | watermark (s : BangBangState)
  | pid (s : PIDState)
  | pid_v (s : VPIDState)
deriving DecidableEq

/-- The heater_max_power captured by the control instance at construction. -/
def ControlState.heater_max_power : ControlState → ℚ
  | .watermark s => s.heater_max_power
  | .pid s => s.heater_max_power
  | .pid_v s => s.heater_max_power

/-- Dispatch of `self.control.temperature_update(read_time, temp, target)`:
new control state plus the duty value the algorithm passes to
heater.set_pwm. -/
def ControlState.update (c : ControlState) (read_time temp target_temp : ℚ) :
    ControlState × ℚ :=
  match c with
  | .watermark s =>
    let r := ControlBangBang.temperature_update s read_time temp target_temp
    (.watermark r.1, r.2)
  | .pid s =>
    let r := ControlPID.temperature_update s read_time temp target_temp
    (.pid r.1, r.2)
  | .pid_v s =>
    let r := ControlVelocityPID.temperature_update s read_time temp target_temp
    (.pid_v r.1, r.2)

/-!
Heater (class Heater in the source).  Mutable per-instance fields, with the
configuration bounds carried alongside.
-/

structure HeaterState where
  min_temp : ℚ
  max_temp : ℚ
  max_set_temp : ℚ
  min_extrude_temp : ℚ
  max_power : ℚ
  smooth_time : ℚ
  inv_smooth_time : ℚ
  pwm_delay : ℚ
  cold_extrude : Bool
  can_extrude : Bool
  is_shutdown : Bool
  target_temp : ℚ
  last_temp : ℚ
  smoothed_temp : ℚ
  last_temp_time : ℚ
  next_pwm_time : ℚ
  last_pwm_value : ℚ
  control : ControlState
deriving DecidableEq

/-- Runtime command errors raised by Heater methods. -/
inductive CommandError where
  | out_of_range (degrees min_temp max_set_temp : ℚ)
deriving DecidableEq

/-- Heater.set_pwm: returns the updated heater state and the
`(pwm_time, value)` write handed to mcu_pwm.set_pwm, or `none` when the
write is suppressed.  The thresholds 1/20 and 3/4 are the source's 0.05
and 0.75. -/
def Heater.set_pwm (h : HeaterState) (read_time value0 : ℚ) :
    HeaterState × Option (ℚ × ℚ) :=
  let value := if h.target_temp ≤ 0 ∨ h.is_shutdown = true then 0 else value0
  if (read_time < h.next_pwm_time ∨ h.last_pwm_value = 0)
      ∧ |value - h.last_pwm_value| < 1/20 then
    -- No significant change in value - can suppress update
    (h, none)
  else
    let pwm_time := read_time + h.pwm_delay
    ({ h with next_pwm_time := pwm_time + (3/4) * MAX_HEAT_TIME,
              last_pwm_value := value },
     some (pwm_time, value))

/-- Heater.set_temp: rejects a nonzero request outside
[min_temp, max_set_temp], otherwise stores the target. -/
def Heater.set_temp (h : HeaterState) (degrees : ℚ) :
    Except CommandError HeaterState :=
  if degrees ≠ 0 ∧ (degrees < h.min_temp ∨ degrees > h.max_set_temp) then
    .error (.out_of_range degrees h.min_temp h.max_set_temp)
  else
    .ok { h with target_temp := degrees }

/-- Heater.get_temp, with the mcu's estimated print time at the queried
eventtime passed in directly.  Returns `(smoothed or 0, target)`. -/
def Heater.get_temp (h : HeaterState) (est_print_time : ℚ) : ℚ × ℚ :=
  let print_time := est_print_time - 5
  if h.last_temp_time < print_time then (0, h.target_temp)
  else (h.smoothed_temp, h.target_temp)

/-- Heater.alter_target: clamp a truthy (nonzero) request into
[min_temp, max_temp], store a zero request as-is. -/
def Heater.alter_target (h : HeaterState) (target_temp : ℚ) : HeaterState :=
  { h with target_temp :=
      if target_temp ≠ 0 then max h.min_temp (min h.max_temp target_temp)
      else target_temp }

/-- Heater._handle_shutdown: latches is_shutdown. -/
def Heater.handle_shutdown (h : HeaterState) : HeaterState :=
  { h with is_shutdown := true }

/-- Heater.set_control: atomic swap of the control algorithm; resets the
target when keep_target is false.  Returns the old control. -/
def Heater.set_control (h : HeaterState) (control : ControlState)
    (keep_target : Bool) : HeaterState × ControlState :=
  ({ h with control := control,
            target_temp := if keep_target then h.target_temp else 0 },
   h.control)

/-- Heater.set_inv_smooth_time. -/
def Heater.set_inv_smooth_time (h : HeaterState) (v : ℚ) : HeaterState :=
  { h with inv_smooth_time := v }

/-- Heater.temperature_callback: records the sample, runs the active control
algorithm (which calls set_pwm), then applies exponential smoothing and
recomputes can_extrude.  Returns the state and any mcu write issued. -/
def Heater.temperature_callback (h : HeaterState) (read_time temp : ℚ) :
    HeaterState × Option (ℚ × ℚ) :=
  let time_diff := read_time - h.last_temp_time
  let h1 := { h with last_temp := temp, last_temp_time := read_time }
  let cu := ControlState.update h1.control read_time temp h1.target_temp
  let sp := Heater.set_pwm { h1 with control := cu.1 } read_time cu.2
  let h3 := sp.1
  let temp_diff := temp - h3.smoothed_temp
  let adj_time := min (time_diff * h3.inv_smooth_time) 1
  let h4 := { h3 with smoothed_temp := h3.smoothed_temp + temp_diff * adj_time }
  ({ h4 with can_extrude :=
      (decide (h4.min_extrude_temp ≤ h4.smoothed_temp) || h4.cold_extrude) },
   sp.2)

/-- The operations of heaters.py that touch a Heater's mutable state. -/
inductive HeaterOp where
  | set_temp (degrees : ℚ)
  | alter_target (target_temp : ℚ)
  | set_pwm (read_time value : ℚ)
  | temperature_callback (read_time temp : ℚ)
  | set_control (control : ControlState) (keep_target : Bool)
  | set_inv_smooth_time (v : ℚ)
  | handle_shutdown

/-- One Heater-state transition; a failed set_temp leaves the state
unchanged (the error propagates to the caller). -/
def Heater.step (h : HeaterState) (op : HeaterOp) : HeaterState :=
  match op with
  | .set_temp d =>
    match Heater.set_temp h d with
    | .ok h2 => h2
    | .error _ => h
  | .alter_target t => Heater.alter_target h t
  | .set_pwm rt v => (Heater.set_pwm h rt v).1
  | .temperature_callback rt t => (Heater.temperature_callback h rt t).1
  | .set_control c k => (Heater.set_control h c k).1
  | .set_inv_smooth_time v => Heater.set_inv_smooth_time h v
  | .handle_shutdown => Heater.handle_shutdown h

/-!
Heater.ProfileManager.  The profile dictionary is modelled as an association
list keyed by profile name; a persisted `[pid_profile <heater> <name>]`
config section is modelled with its already-parsed option values.
-/

/-- A parsed profile record (the `temp_profile` dict built by _init_profile). -/
structure TempProfile where
  name : String
  control : String
  max_delta : Option ℚ
  pid_target : Option ℚ
  pid_tolerance : Option ℚ
  smooth_time : Option ℚ
  pid_kp : Option ℚ
  pid_ki : Option ℚ
  pid_kd : Option ℚ
deriving DecidableEq

/-- A stored profile config section as read by _init_profile;
`pid_version` already carries the getint default of 1. -/
structure ProfileConfigSection where
  pid_version : Int
  control : Option String
  max_delta : Option ℚ
  pid_target : Option ℚ
  pid_tolerance : Option ℚ
  smooth_time : Option ℚ
  pid_kp : Option ℚ
  pid_ki : Option ℚ
  pid_kd : Option ℚ
deriving DecidableEq

/-- ProfileManager mutable state: self.profiles and
self.incompatible_profiles. -/
structure PMState where
  profiles : List (String × TempProfile)
  incompatible_profiles : List String
deriving DecidableEq

/-- Errors raised by the profile subsystem (config and gcode errors of the
source, by message). -/
inductive ProfileError where
  | missing_option (key : String)
  | unknown_control (control : String)
  | unknown_profile (name : String)
  | unknown_default_profile (name : String)
deriving DecidableEq

/-- Dict update `self.profiles[name] = p`. -/
def setProfile (m : List (String × TempProfile)) (k : String) (v : TempProfile) :
    List (String × TempProfile) :=
  (k, v) :: m.filter (fun p => p.1 != k)

/-- ProfileManager._init_profile: a version mismatch records the name as
incompatible and yields no profile; otherwise the section is parsed per its
control kind and stored in the profile map. -/
def ProfileManager.init_profile (pm : PMState) (cs : ProfileConfigSection)
    (name : String) : Except ProfileError (PMState × Option TempProfile) :=
  if cs.pid_version ≠ PID_PROFILE_VERSION then
    .ok ({ pm with incompatible_profiles := pm.incompatible_profiles ++ [name] },
         none)
  else
    match cs.control with
    | none => .error (.missing_option "control")
    | some control =>
      if control = "watermark" then
        let p : TempProfile :=
          { name := name, control := control,
            max_delta := some (cs.max_delta.getD 2),
            pid_target := none, pid_tolerance := none, smooth_time := none,
            pid_kp := none, pid_ki := none, pid_kd := none }
        .ok ({ pm with profiles := setProfile pm.profiles name p }, some p)
      else if control = "pid" ∨ control = "pid_v" then
        match cs.pid_kp, cs.pid_ki, cs.pid_kd with
        | some kp, some ki, some kd =>
          let p : TempProfile :=
            { name := name, control := control, max_delta := none,
              pid_target := cs.pid_target, pid_tolerance := cs.pid_tolerance,
              smooth_time := if name = "default" then none else cs.smooth_time,
              pid_kp := some kp, pid_ki := some ki, pid_kd := some kd }
          .ok ({ pm with profiles := setProfile pm.profiles name p }, some p)
        | none, _, _ => .error (.missing_option "pid_kp")
        | _, none, _ => .error (.missing_option "pid_ki")
        | _, _, none => .error (.missing_option "pid_kd")
      else
        .error (.unknown_control control)

/-- Outcome of ProfileManager.load_profile (the constructed control swap is
performed by the caller on the carried profile). -/
inductive LoadOutcome where
  | already_loaded
  | loaded (profile : TempProfile) (defaulted : Bool)
deriving DecidableEq

/-- ProfileManager.load_profile: an early return when the named profile is
already active (and no clean reload is requested); otherwise a map lookup
with a caller-supplied DEFAULT fallback, failing with an unknown-profile
error when both lookups miss. -/
def ProfileManager.load_profile (pm : PMState) (active_name profile_name : String)
    (load_clean : Bool) (default : Option String) :
    Except ProfileError LoadOutcome :=
  if profile_name = active_name ∧ load_clean = false then
    .ok .already_loaded
  else
    match List.lookup profile_name pm.profiles with
    | some profile => .ok (.loaded profile false)
    | none =>
      match default with
      | none => .error (.unknown_profile profile_name)
      | some d =>
        match List.lookup d pm.profiles with
        | some profile => .ok (.loaded profile true)
        | none => .error (.unknown_default_profile d)

/-- ProfileManager._compute_section_name: "default" maps to the heater's own
primary section, every other name to a namespaced sub-section. -/
def ProfileManager.compute_section_name (short_name profile_name : String) :
    String :=
  if profile_name = "default" then short_name
  else "pid_profile " ++ short_name ++ " " ++ profile_name

/-- ProfileManager.remove_profile: deletes an existing profile from the map
and removes its persisted section (returned as `some section_name`); an
unknown name is only reported. -/
def ProfileManager.remove_profile (pm : PMState) (short_name profile_name : String) :
    PMState × Option String :=
  if (List.lookup profile_name pm.profiles).isSome then
    ({ pm with profiles := pm.profiles.filter (fun p => p.1 != profile_name) },
     some (ProfileManager.compute_section_name short_name profile_name))
  else
    (pm, none)

/-!
Concrete instances used to instantiate the theorems below.
-/

/-- A concrete heater: bounds 0/300/280, target 200, no write issued yet
(last_pwm_value 0, next_pwm_time 0). -/
def sampleHeater : HeaterState :=
  { min_temp := 0, max_temp := 300, max_set_temp := 280, min_extrude_temp := 170,
    max_power := 1, smooth_time := 1, inv_smooth_time := 1, pwm_delay := 1/3,
    cold_extrude := false, can_extrude := false, is_shutdown := false,
    target_temp := 200, last_temp := 0, smoothed_temp := 0, last_temp_time := 0,
    next_pwm_time := 0, last_pwm_value := 0,
    control := .watermark ⟨1, 2, false⟩ }

/-- sampleHeater after the klippy:shutdown event. -/
def shutdownHeater : HeaterState := Heater.handle_shutdown sampleHeater

/-- A stored profile section whose pid_version (2) differs from the current
schema version (1). -/
def incompatibleSection : ProfileConfigSection :=
  { pid_version := 2, control := some "pid", max_delta := none,
    pid_target := some 200, pid_tolerance := some (1/50), smooth_time := some 1,
    pid_kp := some 20, pid_ki := some 1, pid_kd := some 100 }

/-- A ProfileManager state with no stored profiles. -/
def emptyPM : PMState := { profiles := [], incompatible_profiles := [] }

/-- The default profile of a heater, as _init_profile builds it from the
heater's primary config section. -/
def defaultProfile : TempProfile :=
  { name := "default", control := "pid", max_delta := none,
    pid_target := some 0, pid_tolerance := some (1/50), smooth_time := none,
    pid_kp := some 20, pid_ki := some 1, pid_kd := some 100 }

/-- A ProfileManager state holding just the default profile, as after
init_default_profile. -/
def pmWithDefault : PMState :=
  { profiles := [("default", defaultProfile)], incompatible_profiles := [] }

/-!
Helper lemmas.
-/

/-- A set_pwm call whose suppression condition holds returns the state
unchanged and issues no write (live heater: target > 0, not shutdown). -/
lemma set_pwm_suppressed (h : HeaterState) (rt v : ℚ)
    (ht : 0 < h.target_temp) (hs : h.is_shutdown = false)
    (hc : (rt < h.next_pwm_time ∨ h.last_pwm_value = 0)
      ∧ |v - h.last_pwm_value| < 1/20) :
    Heater.set_pwm h rt v = (h, none) := by
  have hval : (if h.target_temp ≤ 0 ∨ h.is_shutdown = true then (0 : ℚ) else v) = v := by
    have hn : ¬ (h.target_temp ≤ 0 ∨ h.is_shutdown = true) := by
      push_neg
      exact ⟨ht, by simp [hs]⟩
    rw [if_neg hn]
  simp only [Heater.set_pwm, hval]
  rw [if_pos hc]

/-- set_pwm never touches is_shutdown. -/
lemma set_pwm_fst_is_shutdown (h : HeaterState) (rt v : ℚ) :
    (Heater.set_pwm h rt v).1.is_shutdown = h.is_shutdown := by
  simp only [Heater.set_pwm]
  split_ifs <;> rfl

/-- temperature_callback never touches is_shutdown. -/
lemma temperature_callback_fst_is_shutdown (h : HeaterState) (rt t : ℚ) :
    (Heater.temperature_callback h rt t).1.is_shutdown = h.is_shutdown := by
  simp [Heater.temperature_callback, set_pwm_fst_is_shutdown]

/-- No heater-state operation clears is_shutdown. -/
lemma step_shutdown_latched (h : HeaterState) (op : HeaterOp)
    (hs : h.is_shutdown = true) : (Heater.step h op).is_shutdown = true := by
  cases op with
  | set_temp d =>
    simp only [Heater.step, Heater.set_temp]
    split_ifs <;> simp [hs]
  | alter_target t => simpa [Heater.step, Heater.alter_target] using hs
  | set_pwm rt v => simpa [Heater.step, set_pwm_fst_is_shutdown] using hs
  | temperature_callback rt t =>
    simpa [Heater.step, temperature_callback_fst_is_shutdown] using hs
  | set_control c k => simpa [Heater.step, Heater.set_control] using hs
  | set_inv_smooth_time v =>
    simpa [Heater.step, Heater.set_inv_smooth_time] using hs
  | handle_shutdown => simp [Heater.step, Heater.handle_shutdown]

/-- is_shutdown stays latched over any sequence of operations. -/
lemma foldl_step_shutdown (ops : List HeaterOp) :
    ∀ h : HeaterState, h.is_shutdown = true →
      (ops.foldl Heater.step h).is_shutdown = true := by
  induction ops with
  | nil => intro h hs; exact hs
  | cons op ops ih =>
    intro h hs
    exact ih _ (step_shutdown_latched h op hs)

/-- Any sample whose target is ≤ 0 pins pwm to 0, so a run over such samples
ends (or stays) at pwm = 0. -/
lemma runVelocityPID_pwm_zero (samples : List (ℚ × ℚ × ℚ)) :
    ∀ s : VPIDState, s.pwm = 0 → (∀ x ∈ samples, x.2.2 ≤ 0) →
      (runVelocityPID s samples).pwm = 0 := by
  induction samples with
  | nil => intro s hs _; exact hs
  | cons x xs ih =>
    intro s _ hall
    have hx : x.2.2 ≤ 0 := hall x (List.mem_cons_self x xs)
    have hrest : ∀ y ∈ xs, y.2.2 ≤ 0 := fun y hy => hall y (List.mem_cons_of_mem x hy)
    have hstep : (ControlVelocityPID.temperature_update s x.1 x.2.1 x.2.2).1.pwm = 0 := by
      simp only [ControlVelocityPID.temperature_update]
      have hng : ¬ (x.2.2 > 0) := not_lt.mpr hx
      simp [hng]
    exact ih _ hstep hrest

/-- Looking up a key in a list filtered on that key misses. -/
lemma lookup_filter_ne (k : String) (m : List (String × TempProfile)) :
    List.lookup k (List.filter (fun p => p.1 != k) m) = none := by
  induction m with
  | nil => rfl
  | cons x xs ih =>
    obtain ⟨k1, v⟩ := x
    by_cases hx : k1 = k
    · simp only [List.filter_cons]
      simp [hx, ih]
    · have h1 : ((k1, v).1 != k) = true := by simp [hx]
      have h2 : (k == k1) = false := beq_eq_false_iff_ne.mpr (Ne.symm hx)
      simp only [List.filter_cons, h1, if_pos]
      simp [List.lookup, h2, ih]

/-!
Claim theorems.
-/

/-- Claim C1: in every ControlPID.temperature_update call with target_temp > 0,
if the raw output `o` equals its saturation `clamp(o, 0, max_power)` then the
integral accumulator becomes `int_sum + ic` unconditionally; if `o` is
saturated the accumulator becomes `int_sum + ic` exactly when the sign of the
incremental contribution `ic` disagrees with the sign of `o`, and is left
unchanged otherwise. -/
theorem pid_antiwindup (s : PIDState) (rt temp tgt : ℚ) (h : tgt > 0) :
    (ControlPID.o_of s temp tgt = ControlPID.so_of s temp tgt →
      (ControlPID.temperature_update s rt temp tgt).1.int_sum
        = s.int_sum + ControlPID.ic_of s temp tgt) ∧
    (ControlPID.o_of s temp tgt ≠ ControlPID.so_of s temp tgt →
      (ControlPID.temperature_update s rt temp tgt).1.int_sum
        = (if pySign (ControlPID.o_of s temp tgt) ≠ pySign (ControlPID.ic_of s temp tgt)
           then s.int_sum + ControlPID.ic_of s temp tgt
           else s.int_sum)) := by
  constructor
  · intro ho
    simp [ControlPID.temperature_update, h, ho]
  · intro ho
    simp only [ControlPID.temperature_update, if_pos h, if_neg ho]
    split_ifs with hs <;> simp

/-- Witness for pid_antiwindup at a concrete state and input. -/
theorem pid_antiwindup_witness :
    (200 : ℚ) > 0 ∧
    ((ControlPID.o_of ⟨1/10, 1/100, 1/50, 1, 3, 1, 25, 0, 0, 0⟩ 25 200
        = ControlPID.so_of ⟨1/10, 1/100, 1/50, 1, 3, 1, 25, 0, 0, 0⟩ 25 200 →
      (ControlPID.temperature_update ⟨1/10, 1/100, 1/50, 1, 3, 1, 25, 0, 0, 0⟩ 0 25 200).1.int_sum
        = (0 : ℚ) + ControlPID.ic_of ⟨1/10, 1/100, 1/50, 1, 3, 1, 25, 0, 0, 0⟩ 25 200) ∧
    (ControlPID.o_of ⟨1/10, 1/100, 1/50, 1, 3, 1, 25, 0, 0, 0⟩ 25 200
        ≠ ControlPID.so_of ⟨1/10, 1/100, 1/50, 1, 3, 1, 25, 0, 0, 0⟩ 25 200 →
      (ControlPID.temperature_update ⟨1/10, 1/100, 1/50, 1, 3, 1, 25, 0, 0, 0⟩ 0 25 200).1.int_sum
        = (if pySign (ControlPID.o_of ⟨1/10, 1/100, 1/50, 1, 3, 1, 25, 0, 0, 0⟩ 25 200)
              ≠ pySign (ControlPID.ic_of ⟨1/10, 1/100, 1/50, 1, 3, 1, 25, 0, 0, 0⟩ 25 200)
           then (0 : ℚ) + ControlPID.ic_of ⟨1/10, 1/100, 1/50, 1, 3, 1, 25, 0, 0, 0⟩ 25 200
           else 0))) :=
  ⟨by norm_num, pid_antiwindup ⟨1/10, 1/100, 1/50, 1, 3, 1, 25, 0, 0, 0⟩ 0 25 200 (by norm_num)⟩

/-- Counterexample to claim C2 as stated: with last_pwm_value = 0 the source
also suppresses the write when the re-issue interval HAS elapsed (the
`or not self.last_pwm_value` disjunct), so suppression is not equivalent to
"value changed by < 0.05 AND interval not elapsed": here read_time 10 is past
next_pwm_time 0, the requested duty 0.04 differs from the last value by less
than 0.05, and the write is still suppressed. -/
theorem set_pwm_suppression_counterexample :
    ¬ (10 < sampleHeater.next_pwm_time) ∧
    |(1/25 : ℚ) - sampleHeater.last_pwm_value| < 1/20 ∧
    (Heater.set_pwm sampleHeater 10 (1/25)).2 = none := by
  refine ⟨by norm_num [sampleHeater], ?_, ?_⟩
  · exact abs_lt.mpr (by constructor <;> norm_num [sampleHeater])
  · have hsup := set_pwm_suppressed sampleHeater 10 (1/25)
      (by norm_num [sampleHeater]) rfl
      ⟨Or.inr rfl, abs_lt.mpr (by constructor <;> norm_num [sampleHeater])⟩
    rw [hsup]

/-- Claim C2 (amended): for a live heater (target > 0, not shutdown), the
underlying output write is suppressed iff the requested value differs from the
last written value by less than 0.05 AND (the minimum PWM re-issue interval
has not yet elapsed OR the last written value was 0); consequently, after a
call that writes, a second call within the re-issue interval whose duty
differs by less than 0.05 is suppressed, so the pair produces exactly one
write. -/
theorem set_pwm_suppression (h : HeaterState) (rt v : ℚ)
    (ht : 0 < h.target_temp) (hs : h.is_shutdown = false) :
    ((Heater.set_pwm h rt v).2 = none ↔
      |v - h.last_pwm_value| < 1/20
        ∧ (rt < h.next_pwm_time ∨ h.last_pwm_value = 0)) ∧
    (∀ w, (Heater.set_pwm h rt v).2 = some w →
      ∀ rt2 v2, rt2 < (Heater.set_pwm h rt v).1.next_pwm_time →
        |v2 - v| < 1/20 →
        (Heater.set_pwm (Heater.set_pwm h rt v).1 rt2 v2).2 = none) := by
  have hval : (if h.target_temp ≤ 0 ∨ h.is_shutdown = true then (0 : ℚ) else v) = v := by
    have hn : ¬ (h.target_temp ≤ 0 ∨ h.is_shutdown = true) := by
      push_neg
      exact ⟨ht, by simp [hs]⟩
    rw [if_neg hn]
  have key : (Heater.set_pwm h rt v).2 = none ↔
      ((rt < h.next_pwm_time ∨ h.last_pwm_value = 0)
        ∧ |v - h.last_pwm_value| < 1/20) := by
    simp only [Heater.set_pwm, hval]
    split_ifs with hc
    · simpa using hc
    · simpa using hc
  constructor
  · rw [key]
    exact and_comm
  · intro w hw rt2 v2 hrt2 hd2
    have hnc : ¬ ((rt < h.next_pwm_time ∨ h.last_pwm_value = 0)
        ∧ |v - h.last_pwm_value| < 1/20) := by
      intro hc
      rw [key.mpr hc] at hw
      exact Option.noConfusion hw
    have h1eq : (Heater.set_pwm h rt v).1
        = { h with next_pwm_time := rt + h.pwm_delay + (3/4) * MAX_HEAT_TIME,
                   last_pwm_value := v } := by
      simp only [Heater.set_pwm, hval]
      rw [if_neg hnc]
    have ht1 : 0 < (Heater.set_pwm h rt v).1.target_temp := by
      rw [h1eq]; exact ht
    have hs1 : (Heater.set_pwm h rt v).1.is_shutdown = false := by
      rw [h1eq]; exact hs
    have hl1 : (Heater.set_pwm h rt v).1.last_pwm_value = v := by
      rw [h1eq]
    have hcond : (rt2 < (Heater.set_pwm h rt v).1.next_pwm_time
        ∨ (Heater.set_pwm h rt v).1.last_pwm_value = 0)
        ∧ |v2 - (Heater.set_pwm h rt v).1.last_pwm_value| < 1/20 := by
      refine ⟨Or.inl hrt2, ?_⟩
      rw [hl1]
      exact hd2
    rw [set_pwm_suppressed _ rt2 v2 ht1 hs1 hcond]

/-- Witness for set_pwm_suppression: sampleHeater, first call writes duty
0.8 at time 10, so a second call with duty within 0.05 inside the re-issue
interval is suppressed. -/
theorem set_pwm_suppression_witness :
    (0 : ℚ) < sampleHeater.target_temp ∧ sampleHeater.is_shutdown = false ∧
    (((Heater.set_pwm sampleHeater 10 (4/5)).2 = none ↔
       |(4/5 : ℚ) - sampleHeater.last_pwm_value| < 1/20
         ∧ ((10 : ℚ) < sampleHeater.next_pwm_time ∨ sampleHeater.last_pwm_value = 0)) ∧
     (∀ w, (Heater.set_pwm sampleHeater 10 (4/5)).2 = some w →
       ∀ rt2 v2, rt2 < (Heater.set_pwm sampleHeater 10 (4/5)).1.next_pwm_time →
         |v2 - (4/5 : ℚ)| < 1/20 →
         (Heater.set_pwm (Heater.set_pwm sampleHeater 10 (4/5)).1 rt2 v2).2 = none)) :=
  ⟨by norm_num [sampleHeater], rfl,
   set_pwm_suppression sampleHeater 10 (4/5) (by norm_num [sampleHeater]) rfl⟩

/-- Counterexample to claim C3 as stated: a profile with a mismatched
pid_version is never entered into the profile map at init (only its name is
recorded in incompatible_profiles), so a later load attempt fails with the
GENERIC unknown-profile error, not an incompatible-profile error, and the
profile is absent from the map rather than listed in it. -/
theorem profile_version_counterexample :
    incompatibleSection.pid_version ≠ PID_PROFILE_VERSION ∧
    ProfileManager.init_profile emptyPM incompatibleSection "myprof"
      = .ok ({ profiles := [], incompatible_profiles := ["myprof"] }, none) ∧
    ProfileManager.load_profile
        { profiles := [], incompatible_profiles := ["myprof"] }
        "default" "myprof" false none
      = .error (.unknown_profile "myprof") := by
  refine ⟨by decide, rfl, rfl⟩

/-- Claim C3 (amended): a stored profile whose pid_version differs from the
current schema version is rejected at parse time: it never enters the profile
map (its name is recorded in incompatible_profiles instead), and a load
attempt on it fails with the generic unknown-profile error; it is never
silently loaded or upgraded. -/
theorem profile_version_mismatch (pm : PMState) (cs : ProfileConfigSection)
    (name active : String) (clean : Bool)
    (hv : cs.pid_version ≠ PID_PROFILE_VERSION)
    (hna : name ≠ active)
    (hnp : List.lookup name pm.profiles = none) :
    ProfileManager.init_profile pm cs name
      = .ok ({ pm with
          incompatible_profiles := pm.incompatible_profiles ++ [name] }, none) ∧
    name ∈ pm.incompatible_profiles ++ [name] ∧
    ProfileManager.load_profile
        { pm with incompatible_profiles := pm.incompatible_profiles ++ [name] }
        active name clean none
      = .error (.unknown_profile name) := by
  refine ⟨?_, ?_, ?_⟩
  · unfold ProfileManager.init_profile
    rw [if_pos hv]
  · simp
  · unfold ProfileManager.load_profile
    rw [if_neg (fun hc => hna hc.1)]
    simp [hnp]

/-- Witness for profile_version_mismatch on incompatibleSection. -/
theorem profile_version_mismatch_witness :
    (incompatibleSection.pid_version ≠ PID_PROFILE_VERSION ∧
      ("p1" : String) ≠ "default" ∧
      List.lookup "p1" emptyPM.profiles = none) ∧
    (ProfileManager.init_profile emptyPM incompatibleSection "p1"
      = .ok ({ emptyPM with
          incompatible_profiles := emptyPM.incompatible_profiles ++ ["p1"] }, none) ∧
     "p1" ∈ emptyPM.incompatible_profiles ++ ["p1"] ∧
     ProfileManager.load_profile
        { emptyPM with
          incompatible_profiles := emptyPM.incompatible_profiles ++ ["p1"] }
        "default" "p1" false none
      = .error (.unknown_profile "p1")) :=
  ⟨⟨by decide, by decide, rfl⟩,
   profile_version_mismatch emptyPM incompatibleSection "p1" "default" false
     (by decide) (by decide) rfl⟩

/-- Counterexample to claim C4 as stated: remove_profile has no guard for the
name "default" — it removes the default profile from the map and targets the
heater's own primary config section for removal from persisted storage. -/
theorem remove_default_counterexample :
    (List.lookup "default" pmWithDefault.profiles).isSome = true ∧
    List.lookup "default"
      (ProfileManager.remove_profile pmWithDefault "extruder" "default").1.profiles
        = none ∧
    (ProfileManager.remove_profile pmWithDefault "extruder" "default").2
      = some "extruder" := by
  refine ⟨rfl, rfl, rfl⟩

/-- Claim C4 (amended): remove_profile deletes any existing named profile,
the profile named "default" included (its persisted section being the
heater's primary config section), from the in-memory map and the persisted
storage; after the call the name is absent from the profile map.  A name not
in the map leaves the state unchanged (reported, not raised). -/
theorem remove_profile_removes (pm : PMState) (sn name : String) :
    ((List.lookup name pm.profiles).isSome = true →
      List.lookup name (ProfileManager.remove_profile pm sn name).1.profiles
          = none ∧
      (ProfileManager.remove_profile pm sn name).2
          = some (ProfileManager.compute_section_name sn name) ∧
      (ProfileManager.remove_profile pm sn name).1.incompatible_profiles
          = pm.incompatible_profiles) ∧
    (List.lookup name pm.profiles = none →
      ProfileManager.remove_profile pm sn name = (pm, none)) := by
  constructor
  · intro hsome
    unfold ProfileManager.remove_profile
    rw [if_pos hsome]
    exact ⟨lookup_filter_ne name pm.profiles, rfl, rfl⟩
  · intro hnone
    unfold ProfileManager.remove_profile
    rw [if_neg (by simp [hnone])]

/-- Witness for remove_profile_removes on pmWithDefault (removing
"default"). -/
theorem remove_profile_removes_witness :
    (List.lookup "default" pmWithDefault.profiles).isSome = true ∧
    (List.lookup "default"
        (ProfileManager.remove_profile pmWithDefault "extruder" "default").1.profiles
          = none ∧
     (ProfileManager.remove_profile pmWithDefault "extruder" "default").2
          = some (ProfileManager.compute_section_name "extruder" "default") ∧
     (ProfileManager.remove_profile pmWithDefault "extruder" "default").1.incompatible_profiles
          = pmWithDefault.incompatible_profiles) :=
  ⟨rfl, (remove_profile_removes pmWithDefault "extruder" "default").1 rfl⟩

/-- Claim C5: for every ControlBangBang.temperature_update call (with the
configured max_delta > 0), heating becomes true when temp ≤ target − max_delta,
false when temp ≥ target + max_delta, is unchanged strictly between those
bounds, and the commanded duty is max_power when heating and 0 otherwise. -/
theorem bangbang_hysteresis (s : BangBangState) (rt temp tgt : ℚ)
    (hd : 0 < s.max_delta) :
    (temp ≤ tgt - s.max_delta →
      (ControlBangBang.temperature_update s rt temp tgt).1.heating = true) ∧
    (temp ≥ tgt + s.max_delta →
      (ControlBangBang.temperature_update s rt temp tgt).1.heating = false) ∧
    (tgt - s.max_delta < temp → temp < tgt + s.max_delta →
      (ControlBangBang.temperature_update s rt temp tgt).1.heating = s.heating) ∧
    (ControlBangBang.temperature_update s rt temp tgt).2
      = (if (ControlBangBang.temperature_update s rt temp tgt).1.heating = true
         then s.heater_max_power else 0) := by
  refine ⟨?_, ?_, ?_, ?_⟩
  · intro hlo
    simp only [ControlBangBang.temperature_update, ControlBangBang.next_heating]
    split_ifs with h1 h2 <;> simp_all <;> linarith
  · intro hhi
    simp only [ControlBangBang.temperature_update, ControlBangBang.next_heating]
    split_ifs with h1 h2 <;> simp_all <;> linarith
  · intro h1 h2
    simp only [ControlBangBang.temperature_update, ControlBangBang.next_heating]
    split_ifs with ha hb <;> simp_all <;> linarith
  · simp [ControlBangBang.temperature_update]

/-- Witness for bangbang_hysteresis: target 200, max_delta 5 from the spec's
worked example, at temp 195 the heater turns on. -/
theorem bangbang_hysteresis_witness :
    (0 : ℚ) < 5 ∧ (195 : ℚ) ≤ 200 - 5 ∧
    (ControlBangBang.temperature_update ⟨1, 5, false⟩ 0 195 200).1.heating = true :=
  ⟨by norm_num, by norm_num,
   (bangbang_hysteresis ⟨1, 5, false⟩ 0 195 200 (by norm_num)).1 (by norm_num)⟩

/-- Claim C6: a ControlVelocityPID.temperature_update call with
target_temp ≤ 0 sets pwm to 0, and any further samples processed while the
target stays ≤ 0 leave pwm at 0 regardless of sample values. -/
theorem vpid_idle_pinned (s : VPIDState) (rt temp tgt : ℚ) (h : tgt ≤ 0) :
    (ControlVelocityPID.temperature_update s rt temp tgt).2 = 0 ∧
    (ControlVelocityPID.temperature_update s rt temp tgt).1.pwm = 0 ∧
    (∀ samples : List (ℚ × ℚ × ℚ), (∀ x ∈ samples, x.2.2 ≤ 0) →
      (runVelocityPID (ControlVelocityPID.temperature_update s rt temp tgt).1
        samples).pwm = 0) := by
  have hng : ¬ (tgt > 0) := not_lt.mpr h
  have hp : (ControlVelocityPID.temperature_update s rt temp tgt).1.pwm = 0 := by
    simp [ControlVelocityPID.temperature_update, hng]
  refine ⟨?_, hp, ?_⟩
  · simp [ControlVelocityPID.temperature_update, hng]
  · intro samples hall
    exact runVelocityPID_pwm_zero samples _ hp hall

/-- Witness for vpid_idle_pinned at a concrete state, with pwm previously
nonzero, a hot sample and target 0. -/
theorem vpid_idle_pinned_witness :
    (0 : ℚ) ≤ 0 ∧
    ((ControlVelocityPID.temperature_update
        ⟨1, 1, 1, 1, 1, (25, 25, 25), (0, 1, 2), 0, 0, 1/2⟩ 3 250 0).2 = 0 ∧
     (ControlVelocityPID.temperature_update
        ⟨1, 1, 1, 1, 1, (25, 25, 25), (0, 1, 2), 0, 0, 1/2⟩ 3 250 0).1.pwm = 0 ∧
     (∀ samples : List (ℚ × ℚ × ℚ), (∀ x ∈ samples, x.2.2 ≤ 0) →
       (runVelocityPID (ControlVelocityPID.temperature_update
          ⟨1, 1, 1, 1, 1, (25, 25, 25), (0, 1, 2), 0, 0, 1/2⟩ 3 250 0).1
         samples).pwm = 0)) :=
  ⟨le_refl 0,
   vpid_idle_pinned ⟨1, 1, 1, 1, 1, (25, 25, 25), (0, 1, 2), 0, 0, 1/2⟩ 3 250 0 (le_refl 0)⟩

/-- Claim C7: Heater.set_temp rejects a nonzero out-of-range request with an
out-of-range error (leaving the state untouched, as the error propagates
before the assignment), and accepts any request in [min_temp, max_set_temp]
or equal to 0, after which get_temp reports that target. -/
theorem set_temp_range (h : HeaterState) (d pt : ℚ) :
    (d ≠ 0 ∧ (d < h.min_temp ∨ d > h.max_set_temp) →
      Heater.set_temp h d = .error (.out_of_range d h.min_temp h.max_set_temp)) ∧
    ((d = 0 ∨ (h.min_temp ≤ d ∧ d ≤ h.max_set_temp)) →
      ∃ h2, Heater.set_temp h d = .ok h2 ∧ h2.target_temp = d ∧
        (Heater.get_temp h2 pt).2 = d) := by
  constructor
  · intro hc
    unfold Heater.set_temp
    rw [if_pos hc]
  · intro hc
    have hnc : ¬ (d ≠ 0 ∧ (d < h.min_temp ∨ d > h.max_set_temp)) := by
      rcases hc with h0 | ⟨hl, hr⟩
      · simp [h0]
      · rintro ⟨_, hlt | hgt⟩
        · linarith
        · linarith
    refine ⟨{ h with target_temp := d }, ?_, rfl, ?_⟩
    · unfold Heater.set_temp
      rw [if_neg hnc]
    · simp only [Heater.get_temp]
      split_ifs <;> rfl

/-- Witness for set_temp_range: setting 250 on sampleHeater (range 0..280)
succeeds and get_temp reports 250. -/
theorem set_temp_range_witness :
    ((250 : ℚ) = 0 ∨ (sampleHeater.min_temp ≤ 250 ∧ (250 : ℚ) ≤ sampleHeater.max_set_temp)) ∧
    ∃ h2, Heater.set_temp sampleHeater 250 = .ok h2 ∧ h2.target_temp = 250 ∧
      (Heater.get_temp h2 7).2 = 250 :=
  ⟨Or.inr (by norm_num [sampleHeater]),
   (set_temp_range sampleHeater 250 7).2 (Or.inr (by norm_num [sampleHeater]))⟩

/-- Claim C8: once is_shutdown is true it stays true under every heater-state
operation (and any sequence of them), and every subsequent set_pwm call
commands 0: the issued write, when not suppressed, is `(time, 0)`. -/
theorem shutdown_latched_forces_zero (h : HeaterState) (hs : h.is_shutdown = true) :
    (∀ op, (Heater.step h op).is_shutdown = true) ∧
    (∀ ops : List HeaterOp, (ops.foldl Heater.step h).is_shutdown = true) ∧
    (∀ rt v, (Heater.set_pwm h rt v).2 = none ∨
      (Heater.set_pwm h rt v).2 = some (rt + h.pwm_delay, 0)) := by
  refine ⟨fun op => step_shutdown_latched h op hs,
          fun ops => foldl_step_shutdown ops h hs, ?_⟩
  intro rt v
  have hval : (if h.target_temp ≤ 0 ∨ h.is_shutdown = true then (0 : ℚ) else v) = 0 := by
    simp [hs]
  simp only [Heater.set_pwm, hval]
  split_ifs
  · exact Or.inl rfl
  · exact Or.inr rfl

/-- Witness for shutdown_latched_forces_zero on shutdownHeater. -/
theorem shutdown_latched_forces_zero_witness :
    shutdownHeater.is_shutdown = true ∧
    ((∀ op, (Heater.step shutdownHeater op).is_shutdown = true) ∧
     (∀ ops : List HeaterOp, (ops.foldl Heater.step shutdownHeater).is_shutdown = true) ∧
     (∀ rt v, (Heater.set_pwm shutdownHeater rt v).2 = none ∨
       (Heater.set_pwm shutdownHeater rt v).2 = some (rt + shutdownHeater.pwm_delay, 0))) :=
  ⟨rfl, shutdown_latched_forces_zero shutdownHeater rfl⟩

/-- Claim C9: whatever the control variant and sample, the duty value the
algorithm hands to Heater.set_pwm lies in [0, max_power], hence in [0, 1]
(max_power being configured in (0, 1]). -/
theorem control_duty_in_range (c : ControlState) (rt temp tgt : ℚ)
    (h0 : 0 < ControlState.heater_max_power c)
    (h1 : ControlState.heater_max_power c ≤ 1) :
    0 ≤ (ControlState.update c rt temp tgt).2 ∧
    (ControlState.update c rt temp tgt).2 ≤ ControlState.heater_max_power c ∧
    (ControlState.update c rt temp tgt).2 ≤ 1 := by
  cases c with
  | watermark s =>
    simp only [ControlState.heater_max_power] at h0 h1
    simp only [ControlState.update, ControlBangBang.temperature_update,
      ControlState.heater_max_power]
    split_ifs
    · exact ⟨le_of_lt h0, le_refl _, h1⟩
    · exact ⟨le_refl 0, le_of_lt h0, by linarith⟩
  | pid s =>
    simp only [ControlState.heater_max_power] at h0 h1
    simp only [ControlState.update, ControlPID.temperature_update,
      ControlState.heater_max_power, ControlPID.so_of]
    refine ⟨le_max_left 0 _, ?_, ?_⟩
    · exact max_le (le_of_lt h0) (min_le_left _ _)
    · exact le_trans (max_le (le_of_lt h0) (min_le_left _ _)) h1
  | pid_v s =>
    simp only [ControlState.heater_max_power] at h0 h1
    simp only [ControlState.update, ControlVelocityPID.temperature_update,
      ControlState.heater_max_power]
    split_ifs
    · refine ⟨le_max_left 0 _, ?_, ?_⟩
      · exact max_le (le_of_lt h0) (min_le_left _ _)
      · exact le_trans (max_le (le_of_lt h0) (min_le_left _ _)) h1
    · exact ⟨le_refl 0, le_of_lt h0, by linarith⟩

/-- Witness for control_duty_in_range on a PID controller instance. -/
theorem control_duty_in_range_witness :
    (0 : ℚ) < ControlState.heater_max_power (.pid ⟨1, 1, 1, 1, 3, 1, 25, 0, 0, 0⟩) ∧
    ControlState.heater_max_power (.pid ⟨1, 1, 1, 1, 3, 1, 25, 0, 0, 0⟩) ≤ 1 ∧
    (0 ≤ (ControlState.update (.pid ⟨1, 1, 1, 1, 3, 1, 25, 0, 0, 0⟩) 0 25 200).2 ∧
     (ControlState.update (.pid ⟨1, 1, 1, 1, 3, 1, 25, 0, 0, 0⟩) 0 25 200).2
        ≤ ControlState.heater_max_power (.pid ⟨1, 1, 1, 1, 3, 1, 25, 0, 0, 0⟩) ∧
     (ControlState.update (.pid ⟨1, 1, 1, 1, 3, 1, 25, 0, 0, 0⟩) 0 25 200).2 ≤ 1) :=
  ⟨by norm_num [ControlState.heater_max_power],
   by norm_num [ControlState.heater_max_power],
   control_duty_in_range (.pid ⟨1, 1, 1, 1, 3, 1, 25, 0, 0, 0⟩) 0 25 200
     (by norm_num [ControlState.heater_max_power])
     (by norm_num [ControlState.heater_max_power])⟩

/-- Claim C10: Heater.alter_target is total: a nonzero request is clamped
into [min_temp, max_temp] before being stored, and a zero request is stored
as-is. -/
theorem alter_target_clamps (h : HeaterState) (t : ℚ)
    (hb : h.min_temp ≤ h.max_temp) :
    (t ≠ 0 →
      (Heater.alter_target h t).target_temp = max h.min_temp (min h.max_temp t) ∧
      h.min_temp ≤ (Heater.alter_target h t).target_temp ∧
      (Heater.alter_target h t).target_temp ≤ h.max_temp) ∧
    (t = 0 → (Heater.alter_target h t).target_temp = t) := by
  constructor
  · intro ht
    have he : (Heater.alter_target h t).target_temp
        = max h.min_temp (min h.max_temp t) := by
      simp [Heater.alter_target, ht]
    refine ⟨he, ?_, ?_⟩
    · rw [he]; exact le_max_left _ _
    · rw [he]; exact max_le hb (min_le_left _ _)
  · intro ht
    simp [Heater.alter_target, ht]

/-- Witness for alter_target_clamps: 350 on sampleHeater clamps to 300. -/
theorem alter_target_clamps_witness :
    sampleHeater.min_temp ≤ sampleHeater.max_temp ∧ (350 : ℚ) ≠ 0 ∧
    (Heater.alter_target sampleHeater 350).target_temp
      = max sampleHeater.min_temp (min sampleHeater.max_temp 350) ∧
    sampleHeater.min_temp ≤ (Heater.alter_target sampleHeater 350).target_temp ∧
    (Heater.alter_target sampleHeater 350).target_temp ≤ sampleHeater.max_temp :=
  ⟨by norm_num [sampleHeater], by norm_num,
   (alter_target_clamps sampleHeater 350 (by norm_num [sampleHeater])).1 (by norm_num)⟩

end Heaters
